import Mathlib

/-!
Shallow embedding of `glucometerutils/drivers/fslite.py` (FreeStyle Lite
serial driver): the line grammars (`_CLOCK_RE`, `_EMPTY_RE`, `_COUNT_RE`,
`_READING_RE`, `_CHECKSUM_RE`), the month table `_MONTH_MATCHES`, the parsers
`_parse_clock`, `_parse_nrresults`, `_parse_info`, `_parse_resline`,
`_parse_checksum`, `_parse_result`, and the checksum verification performed in
`Device._fetch_device_information`.

Python exceptions are modelled by the `Err` type below; fallible code returns
`Except Err _`.  Lines are modelled as `String` (the driver strips the
trailing `\r\n` of every received line before parsing, so lines contain no
newline characters and the regex anchor `$` is end-of-string).
-/

namespace Fslite

/-- Exceptions the Python code can raise while parsing.
`invalidResponse` and `invalidChecksum` are the two `glucometerutils.exceptions`
classes used by the driver; `keyError`, `valueError`, `indexError` and
`unboundLocal` model the corresponding built-in Python exceptions escaping
unhandled (dict lookup miss, `float`/`datetime` argument errors, list index out
of range, and reading a local variable before assignment). -/
inductive Err where
  | invalidResponse (s : String)
  | invalidChecksum (expected gotten : Nat)
  | keyError (k : String)
  | valueError (s : String)
  | indexError
  | unboundLocal (n : String)
deriving Repr, DecidableEq

/-- `common.Unit` as used by this driver. -/
inductive GlucoseUnit where
  | MG_DL
  | MMOL_L
deriving Repr, DecidableEq

/-- A `datetime.datetime` value (timezone-naive, microseconds unused here). -/
structure DateTime where
  year : Nat
  month : Nat
  day : Nat
  hour : Nat
  minute : Nat
  second : Nat
deriving Repr, DecidableEq

/-- Gregorian leap-year test, as in Python's `calendar.isleap`. -/
def isLeap (y : Nat) : Bool :=
  y % 4 = 0 && (y % 100 ≠ 0 || y % 400 = 0)

/-- Number of days in a month, as validated by `datetime.datetime`. -/
def daysInMonth (y m : Nat) : Nat :=
  if m = 2 then (if isLeap y then 29 else 28)
  else if m = 4 ∨ m = 6 ∨ m = 9 ∨ m = 11 then 30
  else 31

/-- The `datetime.datetime(year, month, day, hour, minute, second)`
constructor: range-checks every field (MINYEAR = 1, MAXYEAR = 9999) and raises
`ValueError` when one is out of range. -/
def mkDatetime (y m d h mi s : Nat) : Except Err DateTime :=
  if 1 ≤ y ∧ y ≤ 9999 ∧ 1 ≤ m ∧ m ≤ 12 ∧ 1 ≤ d ∧ d ≤ daysInMonth y m
      ∧ h ≤ 23 ∧ mi ≤ 59 ∧ s ≤ 59 then
    .ok ⟨y, m, d, h, mi, s⟩
  else
    .error (.valueError "datetime argument out of range")

/-- A glucose value: `float` in Python, either a finite (integral, parsed from
three decimal digits) value or `float("inf")` for a saturated reading. -/
inductive GlucoseValue where
  | finite (n : Nat)
  | inf
deriving Repr, DecidableEq

/-- `[A-Z]` character class. -/
def isUpper (c : Char) : Bool := 'A' ≤ c && c ≤ 'Z'

/-- `[a-z]` character class. -/
def isLower (c : Char) : Bool := 'a' ≤ c && c ≤ 'z'

/-- `[0-9]` character class. -/
def isDigit (c : Char) : Bool := '0' ≤ c && c ≤ '9'

/-- `[0-9A-F]` character class (uppercase hex digit). -/
def isHexU (c : Char) : Bool := isDigit c || ('A' ≤ c && c ≤ 'F')

/-- Value of a decimal digit character. -/
def digitVal (c : Char) : Nat := c.toNat - 48

/-- Python `int()` on a string of decimal digits. -/
def decimalOf (cs : List Char) : Nat :=
  cs.foldl (fun a c => a * 10 + digitVal c) 0

/-- Value of an uppercase hexadecimal digit character. -/
def hexDigitVal (c : Char) : Nat :=
  if isDigit c then c.toNat - 48 else c.toNat - 55

/-- Python `int(s, 16)` on a string of uppercase hex digits. -/
def hexOf (cs : List Char) : Nat :=
  cs.foldl (fun a c => a * 16 + hexDigitVal c) 0

/-- Named groups captured by `_CLOCK_RE`
`^(?P<month>[A-Z][a-z]{2})  (?P<day>[0-9]{2}) (?P<year>[0-9]{4}) `
`(?P<time>[0-9]{2}:[0-9]{2}:[0-9]{2})$`.
The `time` group `HH:MM:SS` is stored already split at the colons, matching
the `time.split(':')` performed by `_parse_clock`. -/
structure ClockGroups where
  month : List Char
  day : List Char
  year : List Char
  hourStr : List Char
  minuteStr : List Char
  secondStr : List Char
deriving Repr, DecidableEq

/-- Matching a line against `_CLOCK_RE`: the regex is a fixed 21-character
shape `Mon  DD YYYY HH:MM:SS`. -/
def matchClock : List Char → Option ClockGroups
  | [m1, m2, m3, a1, a2, d1, d2, a3, y1, y2, y3, y4, a4,
     h1, h2, c1, n1, n2, c2, s1, s2] =>
    if a1 = ' ' && a2 = ' ' && a3 = ' ' && a4 = ' ' && c1 = ':' && c2 = ':' &&
        isUpper m1 && isLower m2 && isLower m3 && isDigit d1 && isDigit d2 &&
        isDigit y1 && isDigit y2 && isDigit y3 && isDigit y4 &&
        isDigit h1 && isDigit h2 && isDigit n1 && isDigit n2 &&
        isDigit s1 && isDigit s2 then
      some ⟨[m1, m2, m3], [d1, d2], [y1, y2, y3, y4], [h1, h2], [n1, n2], [s1, s2]⟩
    else none
  | _ => none

/-- Matching a line against `_COUNT_RE` `^(?P<nrresults>[0-9]{3})$`:
exactly three decimal digits; returns the captured digits. -/
def matchCount : List Char → Option (List Char)
  | [a, b, c] => if isDigit a && isDigit b && isDigit c then some [a, b, c] else none
  | _ => none

/-- Matching a line against `_CHECKSUM_RE` `^(?P<checksum>0x[0-9A-F]{4})  END$`:
returns the four hex digit characters of the checksum group. -/
def matchChecksum : List Char → Option (List Char)
  | [z1, x1, a, b, c, d, a1, a2, e1, e2, e3] =>
    if z1 = '0' && x1 = 'x' && a1 = ' ' && a2 = ' ' &&
        e1 = 'E' && e2 = 'N' && e3 = 'D' &&
        isHexU a && isHexU b && isHexU c && isHexU d then
      some [a, b, c, d]
    else none
  | _ => none

/-- Named groups captured by `_READING_RE`
`^(?P<reading>|[0-9]{3})  (?P<month>[A-Z][a-z]{2})  (?P<day>[0-9]{2}) `
`(?P<year>[0-9]{4}) (?P<time>[0-9]{2}:[0-9]{2}) `
`(?P<type>[0-9]{2}) (?P<sentinel>0x0[01])$`.
The `time` group `HH:MM` is stored already split at the colon, matching the
`TIME.split(':')` performed by `_parse_resline`.  Note the first alternative
of the `reading` group is the empty string. -/
structure ReadingGroups where
  reading : List Char
  month : List Char
  day : List Char
  year : List Char
  hourStr : List Char
  minuteStr : List Char
  type : List Char
  sentinel : List Char
deriving Repr, DecidableEq

/-- The part of `_READING_RE` after the `reading` group: a fixed 28-character
shape `␣␣Mon␣␣DD␣YYYY␣HH:MM␣TT␣0x0S`. -/
def matchReadingTail (reading : List Char) : List Char → Option ReadingGroups
  | [a1, a2, m1, m2, m3, a3, a4, d1, d2, a5, y1, y2, y3, y4, a6,
     h1, h2, c1, n1, n2, a7, t1, t2, a8, z1, x1, z2, s] =>
    if a1 = ' ' && a2 = ' ' && a3 = ' ' && a4 = ' ' && a5 = ' ' && a6 = ' ' &&
        c1 = ':' && a7 = ' ' && a8 = ' ' && z1 = '0' && x1 = 'x' && z2 = '0' &&
        isUpper m1 && isLower m2 && isLower m3 && isDigit d1 && isDigit d2 &&
        isDigit y1 && isDigit y2 && isDigit y3 && isDigit y4 &&
        isDigit h1 && isDigit h2 && isDigit n1 && isDigit n2 &&
        isDigit t1 && isDigit t2 && (s = '0' || s = '1') then
      some ⟨reading, [m1, m2, m3], [d1, d2], [y1, y2, y3, y4],
            [h1, h2], [n1, n2], [t1, t2], [z1, x1, z2, s]⟩
    else none
  | _ => none

/-- Matching a line against `_READING_RE`.  The `reading` group is the
alternation `(|[0-9]{3})`; the two alternatives are distinguished by the first
character of the line (a digit starts the three-digit alternative, anything
else can only begin the empty alternative followed by the literal spaces),
so the regex engine's alternation order does not matter. -/
def matchReading (cs : List Char) : Option ReadingGroups :=
  match cs with
  | c1 :: c2 :: c3 :: rest =>
    if isDigit c1 then
      if isDigit c2 && isDigit c3 then matchReadingTail [c1, c2, c3] rest
      else none
    else matchReadingTail [] cs
  | _ => matchReadingTail [] cs

/-- The table `_MONTH_MATCHES`, an explicit month-abbreviation → ordinal map. -/
def MONTH_MATCHES : List (String × Nat) :=
  [("Jan", 1), ("Feb", 2), ("Mar", 3), ("Apr", 4), ("May", 5), ("Jun", 6),
   ("Jul", 7), ("Aug", 8), ("Sep", 9), ("Oct", 10), ("Nov", 11), ("Dec", 12)]

/-- Python dict lookup `_MONTH_MATCHES[k]` returns the value or raises
`KeyError`. -/
def monthLookup (k : String) : Except Err Nat :=
  match MONTH_MATCHES.lookup k with
  | some v => .ok v
  | none => .error (.keyError k)

/-- `'\n'.join(data)` for a list of lines. -/
def joinLines (data : List String) : String :=
  String.intercalate "\n" data

/-- `_parse_clock`: match `_CLOCK_RE` (raising `InvalidResponse(datestr)` on
failure), look the month up in `_MONTH_MATCHES` (a miss raises `KeyError`),
convert the numeric fields with `int`, and build a `datetime.datetime`. -/
def parse_clock (datestr : String) : Except Err DateTime :=
  match matchClock datestr.data with
  | none => .error (.invalidResponse datestr)
  | some g => do
    let day := decimalOf g.day
    let month ← monthLookup (String.mk g.month)
    let year := decimalOf g.year
    let hour := decimalOf g.hourStr
    let minute := decimalOf g.minuteStr
    let second := decimalOf g.secondStr
    mkDatetime year month day hour minute second

/-- `_parse_nrresults`: the literal `Log Empty END` (`_EMPTY_RE`) means zero
results, a three-digit string (`_COUNT_RE`) is converted with `int`, anything
else raises `InvalidResponse(countstr)`. -/
def parse_nrresults (countstr : String) : Except Err Nat :=
  if countstr = "Log Empty END" then .ok 0
  else
    match matchCount countstr.data with
    | some ds => .ok (decimalOf ds)
    | none => .error (.invalidResponse countstr)

/-- The info dict built by `_parse_info`. -/
structure Info where
  device_version_ : String
  software_revision_ : String
  device_serialno_ : String
  device_glucose_unit_ : GlucoseUnit
  device_current_date_time_ : DateTime
  device_nrresults_ : Nat
deriving Repr, DecidableEq

/-- `_parse_info`: needs at least `_INFO_SIZE = 5` lines and an empty first
line (otherwise `InvalidResponse('\n'.join(data))`); lines 1 and 2 are the
version strings, line 3 the clock, line 4 the result count; the serial number
is the constant `'N/A'` and the unit the constant `mg/dL`. -/
def parse_info (data : List String) : Except Err Info :=
  match data with
  | d0 :: d1 :: d2 :: d3 :: d4 :: _ =>
    if d0 ≠ "" then .error (.invalidResponse (joinLines data))
    else do
      let clock ← parse_clock d3
      let n ← parse_nrresults d4
      .ok { device_version_ := d1
            software_revision_ := d2
            device_serialno_ := "N/A"
            device_glucose_unit_ := .MG_DL
            device_current_date_time_ := clock
            device_nrresults_ := n }
  | _ => .error (.invalidResponse (joinLines data))

/-- The dict returned by `_parse_resline` for one reading line.  The Python
dict's keys are the fields below; `warning` additionally records whether the
`logging.warning` call for a type code other than `'00'` fired (the only
observable effect of that branch). -/
structure Reading where
  value : GlucoseValue
  day : Nat
  month : Nat
  year : Nat
  hour : Nat
  minute : Nat
  timestamp : DateTime
  READING : String
  TYPE : String
  SENTINEL : String
  warning : Bool
deriving Repr, DecidableEq

/-- Python `float(READING)` on the text captured by the `reading` group of
`_READING_RE`, which is either empty or three decimal digits: `float('')`
raises `ValueError`, three digits convert to their (integral) value. -/
def floatOfReading (cs : List Char) : Except Err GlucoseValue :=
  if cs = [] then .error (.valueError "could not convert string to float")
  else .ok (.finite (decimalOf cs))

/-- The part of `_parse_resline` after `_READING_RE` has matched: warn when
the type code is not `'00'`, convert the value (`float("inf")` for the
literal `'HI '`, otherwise `float(READING)`), look up the month, convert the
numeric fields and build a `datetime.datetime(year, month, day, hour, minute)`
(seconds default to 0). -/
def parse_resline_groups (g : ReadingGroups) (_j : Nat) : Except Err Reading := do
  let warning := String.mk g.type ≠ "00"
  let value ←
    if String.mk g.reading = "HI " then pure GlucoseValue.inf
    else floatOfReading g.reading
  let month ← monthLookup (String.mk g.month)
  let day := decimalOf g.day
  let year := decimalOf g.year
  let hour := decimalOf g.hourStr
  let minute := decimalOf g.minuteStr
  let timestamp ← mkDatetime year month day hour minute 0
  .ok { value := value
        day := day
        month := month
        year := year
        hour := hour
        minute := minute
        timestamp := timestamp
        READING := String.mk g.reading
        TYPE := String.mk g.type
        SENTINEL := String.mk g.sentinel
        warning := warning }

/-- `_parse_resline(line, j)`: match `_READING_RE` (failure raises
`InvalidResponse('error line %d = %s' % (j, line))`), then process the
captured groups. -/
def parse_resline (line : String) (j : Nat) : Except Err Reading :=
  match matchReading line.data with
  | none => .error (.invalidResponse ("error line " ++ toString j ++ " = " ++ line))
  | some g => parse_resline_groups g j

/-- `_parse_checksum(line)`: match `_CHECKSUM_RE` (failure raises
`InvalidResponse('\n'.join(line))` — note the Python joins the *characters*
of the line with newlines), then convert the hex group with `int(_, 16)`. -/
def parse_checksum (line : String) : Except Err Nat :=
  match matchChecksum line.data with
  | none => .error (.invalidResponse (joinLines (line.data.map (String.mk [·]))))
  | some hs => .ok (hexOf hs)

/-- The list comprehension
`[_parse_resline(data[j], j) for j in range(j1, j1 + n)]`:
parses `n` consecutive lines starting at index `j1`, propagating the first
raised exception. -/
def parse_reslines (data : List String) (j1 : Nat) : Nat → Except Err (List Reading)
  | 0 => .ok []
  | n + 1 => do
    let r ← parse_resline (data.getD j1 "") j1
    let rest ← parse_reslines data (j1 + 1) n
    .ok (r :: rest)

/-- The dict returned by `_parse_result`. -/
structure ParsedResponse where
  info : Info
  reslog : List Reading
  checksum : Nat
deriving Repr, DecidableEq

/-- `_INFO_SIZE` -/
def INFO_SIZE : Nat := 5

/-- `_parse_result(data)`: parse the info block; with `n` results the
expected length is 5 (n = 0) or `5 + n + 2`; for n > 0 the line
`data[_INFO_SIZE]` must be empty (the subscript itself raises `IndexError`
when the list has exactly 5 lines), a length mismatch raises
`InvalidResponse`; then the `n` reading lines at indices 6..5+n are parsed
and for n > 0 the checksum line at index `6 + n` is parsed.  The returned
dict always reads the local variable `checksum`, which is only assigned when
`n > 0`; for `n = 0` this raises `UnboundLocalError`. -/
def parse_result (data : List String) : Except Err ParsedResponse := do
  let info ← parse_info data
  let n := info.device_nrresults_
  if n = 0 then
    if data.length ≠ INFO_SIZE then .error (.invalidResponse (joinLines data))
    else .error (.unboundLocal "checksum")
  else
    match data[INFO_SIZE]? with
    | none => .error .indexError
    | some d5 =>
      if d5 ≠ "" then .error (.invalidResponse (joinLines data))
      else if data.length ≠ INFO_SIZE + n + 2 then
        .error (.invalidResponse (joinLines data))
      else do
        let reslog ← parse_reslines data (INFO_SIZE + 1) n
        let checksum ← parse_checksum (data.getD (INFO_SIZE + 1 + n) "")
        .ok { info := info, reslog := reslog, checksum := checksum }

/-- Sum of the byte values (`ord`) of the characters of a string. -/
def lineByteSum (s : String) : Nat :=
  (s.data.map Char.toNat).sum

/-- The checksum computed in `Device._fetch_device_information`:
`(sum(ord(c) for c in ''.join(data[:-1])) + wnl + lnl) % (2 ** 16)` with
`wnl = (ord('\r') + ord('\n')) * (_INFO_SIZE + n)` and `lnl = ord('\n')`. -/
def checksum_gotten (data : List String) (n : Nat) : Nat :=
  (lineByteSum (String.join data.dropLast) + (13 + 10) * (INFO_SIZE + n) + 10) % 2 ^ 16

/-- The parsing part of `Device._fetch_device_information`: parse the
response, then — only when the result count is positive — compare the
declared checksum (`ce`) with the computed one (`cg`), raising
`InvalidChecksum(ce, cg)` on disagreement. -/
def fetch_device_information (data : List String) : Except Err ParsedResponse := do
  let res ← parse_result data
  let n := res.info.device_nrresults_
  if n > 0 then
    let ce := res.checksum
    let cg := checksum_gotten data n
    if ce ≠ cg then .error (.invalidChecksum ce cg)
    else .ok res
  else .ok res

deriving instance DecidableEq for Except

/-! Concrete transcripts used to exercise the parsers. -/

/-- The empty-log example transcript. -/
def emptyLogData : List String :=
  ["", "0.22", "0.22", "Jan  01 2017 12:00:00", "Log Empty END"]

/-- The info record for `emptyLogData`. -/
def emptyLogInfo : Info :=
  { device_version_ := "0.22"
    software_revision_ := "0.22"
    device_serialno_ := "N/A"
    device_glucose_unit_ := .MG_DL
    device_current_date_time_ := ⟨2017, 1, 1, 12, 0, 0⟩
    device_nrresults_ := 0 }

/-- A structurally valid one-reading transcript whose declared checksum
`0x0D5D = 3421` equals the computed one. -/
def oneReadingData : List String :=
  ["", "0.22", "0.22", "Jan  01 2017 12:00:00", "001", "",
   "102  Jun  02 2017 08:30 00 0x00", "0x0D5D  END"]

/-- The reading record parsed from line 6 of `oneReadingData`. -/
def oneReading : Reading :=
  { value := .finite 102
    day := 2
    month := 6
    year := 2017
    hour := 8
    minute := 30
    timestamp := ⟨2017, 6, 2, 8, 30, 0⟩
    READING := "102"
    TYPE := "00"
    SENTINEL := "0x00"
    warning := false }

/-- The parsed response for `oneReadingData`. -/
def oneReadingRes : ParsedResponse :=
  { info := { emptyLogInfo with device_nrresults_ := 1 }
    reslog := [oneReading]
    checksum := 3421 }

/-- A five-line response whose info block reports one result: `_parse_result`
evaluates `data[5]` on it. -/
def truncatedData : List String :=
  ["", "v", "s", "Jan  01 2017 12:00:00", "001"]

/-- A six-line response whose info block reports zero results. -/
def sixLineZeroData : List String :=
  ["", "0.22", "0.22", "Jan  01 2017 12:00:00", "000", "x"]

/-! Helper lemmas. -/

theorem except_bind_ok {ε α β : Type} (a : α) (f : α → Except ε β) :
    (Except.ok a >>= f) = f a := rfl

theorem except_bind_error {ε α β : Type} (e : ε) (f : α → Except ε β) :
    (Except.error e >>= f : Except ε β) = Except.error e := rfl

theorem lineByteSum_append (a b : String) :
    lineByteSum (a ++ b) = lineByteSum a + lineByteSum b := by
  simp [lineByteSum, String.data_append]

theorem lineByteSum_empty : lineByteSum "" = 0 := rfl

theorem lineByteSum_foldl (l : List String) :
    ∀ init : String,
      lineByteSum (l.foldl (fun r s => r ++ s) init) =
        lineByteSum init + (l.map lineByteSum).sum := by
  induction l with
  | nil => intro init; simp
  | cons a l ih =>
    intro init
    simp [List.foldl_cons, ih, lineByteSum_append]
    omega

theorem lineByteSum_join (l : List String) :
    lineByteSum (String.join l) = (l.map lineByteSum).sum := by
  have h := lineByteSum_foldl l ""
  simpa [String.join, lineByteSum_empty] using h

theorem parse_reslines_spec (data : List String) :
    ∀ (n j1 : Nat) (l : List Reading), parse_reslines data j1 n = .ok l →
      l.length = n ∧
      ∀ i (hi : i < l.length),
        parse_resline (data.getD (j1 + i) "") (j1 + i) = .ok (l.get ⟨i, hi⟩) := by
  intro n
  induction n with
  | zero =>
    intro j1 l h
    simp only [parse_reslines] at h
    cases h
    exact ⟨rfl, fun i hi => absurd hi (by simp)⟩
  | succ n ih =>
    intro j1 l h
    simp only [parse_reslines] at h
    cases hr : parse_resline (data.getD j1 "") j1 with
    | error e => rw [hr, except_bind_error] at h; cases h
    | ok r =>
      rw [hr, except_bind_ok] at h
      cases hrest : parse_reslines data (j1 + 1) n with
      | error e => rw [hrest, except_bind_error] at h; cases h
      | ok rest =>
        rw [hrest, except_bind_ok] at h
        cases h
        obtain ⟨hlen, hget⟩ := ih (j1 + 1) rest hrest
        refine ⟨by simp [hlen], ?_⟩
        intro i hi
        match i with
        | 0 => simpa using hr
        | i + 1 =>
          have hi' : i < rest.length := by simpa using hi
          have := hget i hi'
          have harith : j1 + 1 + i = j1 + (i + 1) := by omega
          rw [harith] at this
          simpa using this

/-! Claim theorems. -/

/-- C1: on the five input lines of the empty-log example the info block does
parse to version `0.22`, software revision `0.22`, clock 2017-01-01T12:00:00,
result count 0, serial number `N/A` and unit mg/dL, but `_parse_result` then
fails: its returned dict reads the local variable `checksum`, which is only
assigned when the result count is positive, so the parse raises
`UnboundLocalError` instead of succeeding with an empty reading sequence. -/
theorem empty_log_example_raises_unbound_local :
    parse_info emptyLogData = .ok emptyLogInfo ∧
    parse_result emptyLogData = .error (.unboundLocal "checksum") :=
  ⟨by decide, by decide⟩

/-- C3: a reading line whose value field is the literal `HI ` (all other
fields well-formed) is rejected by `_READING_RE` — the first alternative of
its `reading` group is the empty string, not `HI ` — so `_parse_resline`
raises `InvalidResponse` instead of yielding an infinite-valued reading. -/
theorem hi_reading_rejected :
    parse_resline "HI   Jun  02 2017 08:30 00 0x00" 6 =
      .error (.invalidResponse "error line 6 = HI   Jun  02 2017 08:30 00 0x00") := by
  decide

/-- C6: the reading grammar demands exactly a three-letter month followed by
two spaces, so the three-letter abbreviation `Jun` parses (to month ordinal 6)
while the four-character long spelling `June` is rejected with
`InvalidResponse`, contrary to the stated tolerance for long spellings. -/
theorem long_month_spelling_rejected :
    parse_resline "102  Jun  02 2017 08:30 00 0x00" 6 = .ok oneReading ∧
    parse_resline "102  June 02 2017 08:30 00 0x00" 6 =
      .error (.invalidResponse "error line 6 = 102  June 02 2017 08:30 00 0x00") :=
  ⟨by decide, by decide⟩

/-- C7 counterexample: a clock line whose month token `Xyz` matches the
letter-shape grammar but is not in `_MONTH_MATCHES` makes `_parse_clock`
raise `KeyError`, not the invalid-response error the claim states. -/
theorem unknown_month_counterexample :
    parse_clock "Xyz  01 2017 12:00:00" = .error (.keyError "Xyz") := by
  decide

/-- C7 amended: for a clock or reading line whose month token matches the
letter-shape grammar but is absent from `_MONTH_MATCHES`, parsing raises an
unhandled `KeyError` carrying the month token (not `InvalidResponse`); on a
reading line the table is only consulted after the value conversion, so the
value field must be non-empty for the `KeyError` to be reached. -/
theorem unknown_month_raises_keyerror :
    (∀ (s : String) (g : ClockGroups), matchClock s.data = some g →
      MONTH_MATCHES.lookup (String.mk g.month) = none →
      parse_clock s = .error (.keyError (String.mk g.month))) ∧
    (∀ (line : String) (j : Nat) (g : ReadingGroups),
      matchReading line.data = some g →
      MONTH_MATCHES.lookup (String.mk g.month) = none →
      g.reading ≠ [] →
      parse_resline line j = .error (.keyError (String.mk g.month))) := by
  constructor
  · intro s g hm hl
    simp only [parse_clock, hm, monthLookup, hl, except_bind_error]
  · intro line j g hm hl hne
    simp only [parse_resline, hm, parse_resline_groups]
    by_cases hhi : String.mk g.reading = "HI "
    · simp only [hhi, if_pos rfl, monthLookup, hl]
      rfl
    · simp only [if_neg hhi, floatOfReading, if_neg hne, except_bind_ok,
        monthLookup, hl, except_bind_error]

/-- C7 witness: the amended theorem applied to a concrete clock line and a
concrete reading line with month token `Xyz`. -/
theorem unknown_month_raises_keyerror_witness :
    parse_clock "Xyz  01 2017 12:00:00" = .error (.keyError "Xyz") ∧
    parse_resline "102  Xyz  02 2017 08:30 00 0x00" 6 = .error (.keyError "Xyz") := by
  constructor
  · exact unknown_month_raises_keyerror.1 "Xyz  01 2017 12:00:00"
      ⟨['X', 'y', 'z'], ['0', '1'], ['2', '0', '1', '7'], ['1', '2'], ['0', '0'], ['0', '0']⟩
      (by decide) (by decide)
  · exact unknown_month_raises_keyerror.2 "102  Xyz  02 2017 08:30 00 0x00" 6
      ⟨['1', '0', '2'], ['X', 'y', 'z'], ['0', '2'], ['2', '0', '1', '7'],
       ['0', '8'], ['3', '0'], ['0', '0'], ['0', 'x', '0', '0']⟩
      (by decide) (by decide) (by decide)

/-- Auxiliary: `_COUNT_RE` fails exactly on inputs that are not three
decimal digits. -/
theorem matchCount_eq_none_of (cs : List Char)
    (h : ¬ (cs.length = 3 ∧ cs.all isDigit = true)) : matchCount cs = none := by
  match cs with
  | [] => rfl
  | [a] => rfl
  | [a, b] => rfl
  | [a, b, c] =>
    have hd : ¬ (isDigit a && isDigit b && isDigit c) = true := by
      intro hd
      simp only [Bool.and_eq_true] at hd
      exact h ⟨rfl, by simp [List.all_cons, hd.1.1, hd.1.2, hd.2]⟩
    simp [matchCount, hd]
  | a :: b :: c :: d :: tl => rfl

/-- C8: `_parse_nrresults` maps the literal `Log Empty END` and the digit
string `000` to count 0, maps any string of exactly three decimal digits to
its decimal value, and raises `InvalidResponse` carrying the offending line
on every other input. -/
theorem nrresults_spec :
    parse_nrresults "Log Empty END" = .ok 0 ∧
    parse_nrresults "000" = .ok 0 ∧
    (∀ c0 c1 c2 : Char, isDigit c0 = true → isDigit c1 = true → isDigit c2 = true →
      parse_nrresults (String.mk [c0, c1, c2]) =
        .ok (100 * digitVal c0 + 10 * digitVal c1 + digitVal c2)) ∧
    (∀ s : String, s ≠ "Log Empty END" →
      ¬ (s.data.length = 3 ∧ s.data.all isDigit = true) →
      parse_nrresults s = .error (.invalidResponse s)) := by
  refine ⟨by decide, by decide, ?_, ?_⟩
  · intro c0 c1 c2 h0 h1 h2
    have hne : String.mk [c0, c1, c2] ≠ "Log Empty END" := by
      intro h
      have := congrArg (fun s => s.data.length) h
      simp at this
    simp only [parse_nrresults, if_neg hne, matchCount, h0, h1, h2,
      Bool.and_true, Bool.and_self, if_pos rfl]
    simp [decimalOf, List.foldl]
    ring
  · intro s hne hnd
    simp only [parse_nrresults, if_neg hne, matchCount_eq_none_of s.data hnd]

/-- C8 witness: `nrresults_spec` at the three-digit string `042` and at the
non-matching string `abc`. -/
theorem nrresults_spec_witness :
    parse_nrresults "042" = .ok 42 ∧
    parse_nrresults "abc" = .error (.invalidResponse "abc") := by
  constructor
  · have h := nrresults_spec.2.2.1 '0' '4' '2' (by decide) (by decide) (by decide)
    simpa using h
  · exact nrresults_spec.2.2.2 "abc" (by decide) (by decide)

/-- C4 counterexample: a five-line response whose info block reports one
result: the claim demands `InvalidResponse` (the line count 5 differs from
7 + 1), but `_parse_result` evaluates `data[5]` before any length check and
raises `IndexError`. -/
theorem structural_error_counterexample :
    parse_info truncatedData =
      .ok { device_version_ := "v"
            software_revision_ := "s"
            device_serialno_ := "N/A"
            device_glucose_unit_ := .MG_DL
            device_current_date_time_ := ⟨2017, 1, 1, 12, 0, 0⟩
            device_nrresults_ := 1 } ∧
    parse_result truncatedData = .error .indexError :=
  ⟨by decide, by decide⟩

/-- C4 amended: after a successful info parse with count `n`, a line-count or
blank-line violation makes `_parse_result` raise `InvalidResponse` — except
that with `n > 0` and exactly five lines the subscript `data[5]` raises
`IndexError` instead. -/
theorem structural_errors_invalid_response (data : List String) (info : Info)
    (hinfo : parse_info data = .ok info) :
    (info.device_nrresults_ = 0 → data.length ≠ 5 →
      parse_result data = .error (.invalidResponse (joinLines data))) ∧
    (0 < info.device_nrresults_ → data.length = 5 →
      parse_result data = .error .indexError) ∧
    (∀ d5, 0 < info.device_nrresults_ → data[5]? = some d5 →
      (d5 ≠ "" ∨ data.length ≠ 7 + info.device_nrresults_) →
      parse_result data = .error (.invalidResponse (joinLines data))) := by
  refine ⟨?_, ?_, ?_⟩
  · intro h0 hlen
    simp only [parse_result, hinfo, except_bind_ok, h0, if_pos rfl, INFO_SIZE,
      if_neg, hlen]
    simp [hlen]
  · intro hpos hlen
    have hn : info.device_nrresults_ ≠ 0 := by omega
    have h5 : data[5]? = none := by
      rw [List.getElem?_eq_none]
      omega
    simp only [parse_result, hinfo, except_bind_ok, if_neg hn, INFO_SIZE, h5]
  · intro d5 hpos h5 hbad
    have hn : info.device_nrresults_ ≠ 0 := by omega
    rcases hbad with hb | hb
    · simp only [parse_result, hinfo, except_bind_ok, if_neg hn, INFO_SIZE, h5,
        if_neg hb]
      simp [hb]
    · simp only [parse_result, hinfo, except_bind_ok, if_neg hn, INFO_SIZE, h5]
      by_cases hb5 : d5 = ""
      · simp [hb5, hb]
        intro h
        exact absurd (by omega : data.length = 7 + info.device_nrresults_) hb
      · simp [hb5]

/-- C4 witness: the amended theorem applied to a six-line response with
count 0 (first conjunct) and to `truncatedData` (second conjunct). -/
theorem structural_errors_invalid_response_witness :
    parse_result sixLineZeroData =
      .error (.invalidResponse "\n0.22\n0.22\nJan  01 2017 12:00:00\n000\nx") ∧
    parse_result truncatedData = .error .indexError := by
  constructor
  · have h := (structural_errors_invalid_response sixLineZeroData
      emptyLogInfo (by decide)).1 (by decide) (by decide)
    simpa using h
  · exact (structural_errors_invalid_response truncatedData
      { device_version_ := "v"
        software_revision_ := "s"
        device_serialno_ := "N/A"
        device_glucose_unit_ := .MG_DL
        device_current_date_time_ := ⟨2017, 1, 1, 12, 0, 0⟩
        device_nrresults_ := 1 } (by decide)).2.1 (by decide) (by decide)

/-- C5: whenever `_parse_result` accepts a response, the reading sequence has
exactly as many records as the info block's result count, and the i-th record
is the one `_parse_resline` yields on the i-th reading line (line `6 + i` of
the transcript, 0-based), so arrival order is preserved. -/
theorem reading_log_count_and_order (data : List String) (res : ParsedResponse)
    (hp : parse_result data = .ok res) :
    res.reslog.length = res.info.device_nrresults_ ∧
    ∀ i (hi : i < res.reslog.length),
      parse_resline (data.getD (6 + i) "") (6 + i) = .ok (res.reslog.get ⟨i, hi⟩) := by
  cases hinfo : parse_info data with
  | error e => simp only [parse_result, hinfo, except_bind_error] at hp; cases hp
  | ok info =>
    simp only [parse_result, hinfo, except_bind_ok] at hp
    by_cases h0 : info.device_nrresults_ = 0
    · rw [if_pos h0] at hp
      by_cases hl : data.length ≠ INFO_SIZE
      · rw [if_pos hl] at hp; cases hp
      · rw [if_neg hl] at hp; cases hp
    · rw [if_neg h0] at hp
      cases h5 : data[INFO_SIZE]? with
      | none => rw [h5] at hp; simp only [] at hp; cases hp
      | some d5 =>
        rw [h5] at hp
        simp only [] at hp
        by_cases hb : d5 ≠ ""
        · rw [if_pos hb] at hp; cases hp
        · rw [if_neg hb] at hp
          by_cases hlen : data.length ≠ INFO_SIZE + info.device_nrresults_ + 2
          · rw [if_pos hlen] at hp; cases hp
          · rw [if_neg hlen] at hp
            cases hrl : parse_reslines data (INFO_SIZE + 1) info.device_nrresults_ with
            | error e => rw [hrl, except_bind_error] at hp; cases hp
            | ok reslog =>
              rw [hrl, except_bind_ok] at hp
              cases hcs : parse_checksum
                  (data.getD (INFO_SIZE + 1 + info.device_nrresults_) "") with
              | error e => rw [hcs, except_bind_error] at hp; cases hp
              | ok ck =>
                rw [hcs, except_bind_ok] at hp
                injection hp with hp
                subst hp
                obtain ⟨hlen', hget⟩ := parse_reslines_spec data
                  info.device_nrresults_ (INFO_SIZE + 1) reslog hrl
                refine ⟨hlen', ?_⟩
                intro i hi
                have harith : INFO_SIZE + 1 + i = 6 + i := by
                  simp [INFO_SIZE]
                have h := hget i hi
                rw [harith] at h
                exact h

/-- C5 witness: `reading_log_count_and_order` applied to the accepted
one-reading transcript. -/
theorem reading_log_count_and_order_witness :
    oneReadingRes.reslog.length = oneReadingRes.info.device_nrresults_ :=
  (reading_log_count_and_order oneReadingData oneReadingRes (by decide)).1

/-- C2: for every response `_parse_result` accepts with a positive result
count `n`, the computed checksum is the sum of the byte values of the
characters of every line but the last (the checksum line), plus the
line-ending correction `(13 + 10) * (5 + n) + 10`, reduced modulo `2 ^ 16`;
`_fetch_device_information` succeeds when the declared checksum equals this
value and raises `InvalidChecksum` carrying the declared (expected) and
computed values when it does not. -/
theorem checksum_verification (data : List String) (res : ParsedResponse)
    (hp : parse_result data = .ok res) (hn : 0 < res.info.device_nrresults_) :
    (res.checksum =
        ((data.dropLast.map lineByteSum).sum
          + (13 + 10) * (5 + res.info.device_nrresults_) + 10) % 2 ^ 16 →
      fetch_device_information data = .ok res) ∧
    (res.checksum ≠
        ((data.dropLast.map lineByteSum).sum
          + (13 + 10) * (5 + res.info.device_nrresults_) + 10) % 2 ^ 16 →
      fetch_device_information data =
        .error (.invalidChecksum res.checksum
          (((data.dropLast.map lineByteSum).sum
            + (13 + 10) * (5 + res.info.device_nrresults_) + 10) % 2 ^ 16))) := by
  have hcg : checksum_gotten data res.info.device_nrresults_ =
      ((data.dropLast.map lineByteSum).sum
        + (13 + 10) * (5 + res.info.device_nrresults_) + 10) % 2 ^ 16 := by
    simp only [checksum_gotten, lineByteSum_join, INFO_SIZE]
  constructor
  · intro he
    simp only [fetch_device_information, hp, except_bind_ok, if_pos hn, hcg, he]
    simp
  · intro he
    simp only [fetch_device_information, hp, except_bind_ok, if_pos hn, hcg]
    rw [if_pos he]

/-- C2 witness: `checksum_verification` on the one-reading transcript, whose
declared checksum `0x0D5D` is the correct sum. -/
theorem checksum_verification_witness :
    fetch_device_information oneReadingData = .ok oneReadingRes :=
  (checksum_verification oneReadingData oneReadingRes (by decide) (by decide)).1
    (by decide)

/-- C9: for a reading line matched by `_READING_RE` whose type code is not
`'00'`, `_parse_resline` still succeeds and returns the same record as it
would for the captured groups with type code `'00'`, except for the stored
type string and the anomaly warning, which is surfaced via the log only
(never as an error). -/
theorem type_code_warning_only (line : String) (j : Nat) (g : ReadingGroups)
    (r : Reading)
    (hm : matchReading line.data = some g)
    (hty : String.mk g.type ≠ "00")
    (h00 : parse_resline_groups { g with type := ['0', '0'] } j = .ok r) :
    parse_resline line j = .ok { r with TYPE := String.mk g.type, warning := true } := by
  simp only [parse_resline, hm]
  simp only [parse_resline_groups] at h00 ⊢
  by_cases hhi : String.mk g.reading = "HI "
  · rw [if_pos hhi] at h00 ⊢
    rw [pure_bind] at h00 ⊢
    cases hmo : monthLookup (String.mk g.month) with
    | error e => simp only [hmo, except_bind_error] at h00; cases h00
    | ok mo =>
      simp only [hmo, except_bind_ok] at h00 ⊢
      cases hdt : mkDatetime (decimalOf g.year) mo (decimalOf g.day)
          (decimalOf g.hourStr) (decimalOf g.minuteStr) 0 with
      | error e => simp only [hdt, except_bind_error] at h00; cases h00
      | ok ts =>
        simp only [hdt, except_bind_ok] at h00 ⊢
        injection h00 with h00
        subst h00
        simp [hty]
  · rw [if_neg hhi] at h00 ⊢
    cases hv : floatOfReading g.reading with
    | error e => simp only [hv, except_bind_error] at h00; cases h00
    | ok v =>
      simp only [hv, except_bind_ok] at h00 ⊢
      cases hmo : monthLookup (String.mk g.month) with
      | error e => simp only [hmo, except_bind_error] at h00; cases h00
      | ok mo =>
        simp only [hmo, except_bind_ok] at h00 ⊢
        cases hdt : mkDatetime (decimalOf g.year) mo (decimalOf g.day)
            (decimalOf g.hourStr) (decimalOf g.minuteStr) 0 with
        | error e => simp only [hdt, except_bind_error] at h00; cases h00
        | ok ts =>
          simp only [hdt, except_bind_ok] at h00 ⊢
          injection h00 with h00
          subst h00
          simp [hty]

/-- C9 witness: `type_code_warning_only` on a concrete reading line with type
code `05`. -/
theorem type_code_warning_only_witness :
    parse_resline "102  Jun  02 2017 08:30 05 0x00" 6 =
      .ok { oneReading with TYPE := "05", warning := true } := by
  have h := type_code_warning_only "102  Jun  02 2017 08:30 05 0x00" 6
    ⟨['1', '0', '2'], ['J', 'u', 'n'], ['0', '2'], ['2', '0', '1', '7'],
     ['0', '8'], ['3', '0'], ['0', '5'], ['0', 'x', '0', '0']⟩
    oneReading (by decide) (by decide) (by decide)
  simpa using h

/-- C10: `_READING_RE` accepts an empty value field — its `reading` group's
first alternative is the empty string — so a line of two spaces followed by
well-formed month, day, year, time, type and sentinel fields matches the
grammar, and `_parse_resline` then raises the unhandled `ValueError` of
`float('')` rather than `InvalidResponse`. -/
theorem empty_reading_field_value_error
    (j : Nat) (m1 m2 m3 d1 d2 y1 y2 y3 y4 h1 h2 n1 n2 t1 t2 s : Char)
    (hm1 : isUpper m1 = true) (hm2 : isLower m2 = true) (hm3 : isLower m3 = true)
    (hd1 : isDigit d1 = true) (hd2 : isDigit d2 = true)
    (hy1 : isDigit y1 = true) (hy2 : isDigit y2 = true)
    (hy3 : isDigit y3 = true) (hy4 : isDigit y4 = true)
    (hh1 : isDigit h1 = true) (hh2 : isDigit h2 = true)
    (hn1 : isDigit n1 = true) (hn2 : isDigit n2 = true)
    (ht1 : isDigit t1 = true) (ht2 : isDigit t2 = true)
    (hs : s = '0' ∨ s = '1') :
    matchReading [' ', ' ', m1, m2, m3, ' ', ' ', d1, d2, ' ', y1, y2, y3, y4,
        ' ', h1, h2, ':', n1, n2, ' ', t1, t2, ' ', '0', 'x', '0', s] =
      some ⟨[], [m1, m2, m3], [d1, d2], [y1, y2, y3, y4], [h1, h2], [n1, n2],
        [t1, t2], ['0', 'x', '0', s]⟩ ∧
    parse_resline (String.mk [' ', ' ', m1, m2, m3, ' ', ' ', d1, d2, ' ',
        y1, y2, y3, y4, ' ', h1, h2, ':', n1, n2, ' ', t1, t2, ' ',
        '0', 'x', '0', s]) j =
      .error (.valueError "could not convert string to float") := by
  have hmatch : matchReading [' ', ' ', m1, m2, m3, ' ', ' ', d1, d2, ' ',
      y1, y2, y3, y4, ' ', h1, h2, ':', n1, n2, ' ', t1, t2, ' ',
      '0', 'x', '0', s] =
      some ⟨[], [m1, m2, m3], [d1, d2], [y1, y2, y3, y4], [h1, h2], [n1, n2],
        [t1, t2], ['0', 'x', '0', s]⟩ := by
    have hsp : isDigit ' ' = false := by decide
    rcases hs with rfl | rfl <;>
      simp [matchReading, matchReadingTail, hsp, hm1, hm2, hm3, hd1, hd2,
        hy1, hy2, hy3, hy4, hh1, hh2, hn1, hn2, ht1, ht2]
  refine ⟨hmatch, ?_⟩
  have hdata : (String.mk [' ', ' ', m1, m2, m3, ' ', ' ', d1, d2, ' ',
      y1, y2, y3, y4, ' ', h1, h2, ':', n1, n2, ' ', t1, t2, ' ',
      '0', 'x', '0', s]).data =
      [' ', ' ', m1, m2, m3, ' ', ' ', d1, d2, ' ', y1, y2, y3, y4, ' ',
       h1, h2, ':', n1, n2, ' ', t1, t2, ' ', '0', 'x', '0', s] := rfl
  simp only [parse_resline, hdata, hmatch, parse_resline_groups]
  have hhi : String.mk ([] : List Char) ≠ "HI " := by decide
  rw [if_neg hhi]
  simp [floatOfReading, except_bind_error]

/-- C10 witness: `empty_reading_field_value_error` at concrete field
characters (month `Jun`, date 02 2017, time 08:30, type 00, sentinel 0x00). -/
theorem empty_reading_field_value_error_witness :
    parse_resline "  Jun  02 2017 08:30 00 0x00" 6 =
      .error (.valueError "could not convert string to float") := by
  have h := (empty_reading_field_value_error 6 'J' 'u' 'n' '0' '2' '2' '0' '1'
    '7' '0' '8' '3' '0' '0' '0' '0' (by decide) (by decide) (by decide)
    (by decide) (by decide) (by decide) (by decide) (by decide) (by decide)
    (by decide) (by decide) (by decide) (by decide) (by decide) (by decide)
    (Or.inl rfl)).2
  have heq : String.mk [' ', ' ', 'J', 'u', 'n', ' ', ' ', '0', '2', ' ',
      '2', '0', '1', '7', ' ', '0', '8', ':', '3', '0', ' ', '0', '0', ' ',
      '0', 'x', '0', '0'] = "  Jun  02 2017 08:30 00 0x00" := rfl
  rw [heq] at h
  exact h
